import Mathlib

/-!
Verification development for the response-filtering and journal-classification
core of the mcp-redmine repository.

The embedding translates the Python sources
`mcp_redmine/response_filters.py` and `mcp_redmine/journal_filters.py`
into executable Lean definitions:

* JSON-like trees (`JValue`) model the Python dict/list/scalar values that
  flow through the filter engine; Python dicts are modelled as association
  lists in insertion order (Python dict keys are unique and iteration is in
  insertion order).
* The compiled regular expressions of `GerritPatternMatcher` are modelled by
  a small regex interpreter (`RE`, `runRE`, `reSearch`) covering exactly the
  constructs the source patterns use (literals, character classes, `*`, `+`,
  `?`, `{40}`, and the `\b` word boundary).  All five pattern groups are
  compiled with `re.IGNORECASE` in the source, which is modelled by matching
  the lower-cased text against lower-cased literals.
* Python truthiness tests (`if config.include_fields:` and the like) are
  modelled by explicit truthiness functions.
-/

set_option maxHeartbeats 1000000

namespace McpRedmine

/-- JSON-like value: the shape of Redmine API response bodies that
`filter_data` walks (scalars, lists, and dicts-as-association-lists). -/
inductive JValue where
  | null
  | bool (b : Bool)
  | num (n : Int)
  | str (s : String)
  | arr (items : List JValue)
  | obj (fields : List (String × JValue))

/-- A Python dict with string keys, in insertion order. -/
abbrev JObj := List (String × JValue)

/-- Python truthiness of a value (`if value:`). -/
def jTruthy : JValue → Bool
  | .null => false
  | .bool b => b
  | .num n => n != 0
  | .str s => s ≠ ""
  | .arr items => !items.isEmpty
  | .obj fields => !fields.isEmpty

/-- Python truthiness of an optional list option such as
`config.include_fields` (`None` and the empty list are both falsy). -/
def listTruthy : Option (List String) → Bool
  | none => false
  | some l => !l.isEmpty

/-- Python truthiness of an optional integer option such as
`config.max_array_items` (`None` and `0` are both falsy). -/
def natTruthy : Option Nat → Bool
  | none => false
  | some n => n != 0

/-! ## Regex interpreter

The source compiles a fixed set of regular expressions.  `RE` covers the
constructs those patterns use.  `runRE r prev s` returns the list of
possible `(previous character, remaining suffix)` states after matching `r`
at the start of `s`; `prev` is the character immediately before the current
position (needed for the `\b` word-boundary assertion). -/

/-- Regular-expression syntax used by the source patterns. -/
inductive RE where
  | eps
  | lit (cs : List Char)
  | cls (p : Char → Bool)
  | opt (r : RE)
  | starP (p : Char → Bool)
  | plusP (p : Char → Bool)
  | repP (n : Nat) (p : Char → Bool)
  | wordB
  | seq (a b : RE)

/-- Match a literal character sequence. -/
def litRun : List Char → Option Char → List Char → Option (Option Char × List Char)
  | [], prev, s => some (prev, s)
  | _ :: _, _, [] => none
  | c :: cs, _, d :: s => if d = c then litRun cs (some d) s else none

/-- Match a single character of a class. -/
def clsRun (p : Char → Bool) : Option Char → List Char → List (Option Char × List Char)
  | _, [] => []
  | _, c :: s => if p c then [(some c, s)] else []

/-- All ways of matching `p*` (zero or more characters of the class). -/
def starRun (p : Char → Bool) : Option Char → List Char → List (Option Char × List Char)
  | prev, [] => [(prev, [])]
  | prev, c :: s => (prev, c :: s) :: (if p c then starRun p (some c) s else [])

/-- Match exactly `n` characters of a class (`p{n}`). -/
def repRun (p : Char → Bool) : Nat → Option Char → List Char → Option (Option Char × List Char)
  | 0, prev, s => some (prev, s)
  | _ + 1, _, [] => none
  | n + 1, _, c :: s => if p c then repRun p n (some c) s else none

/-- Word character for `\b` (`[A-Za-z0-9_]` on the ASCII inputs considered). -/
def isWordO : Option Char → Bool
  | none => false
  | some c => c.isAlphanum || c = '_'

/-- The matcher: all `(previous char, suffix)` states reachable by matching
`r` at the current position. -/
def runRE : RE → Option Char → List Char → List (Option Char × List Char)
  | .eps, prev, s => [(prev, s)]
  | .lit cs, prev, s => (litRun cs prev s).toList
  | .cls p, prev, s => clsRun p prev s
  | .opt r, prev, s => (prev, s) :: runRE r prev s
  | .starP p, prev, s => starRun p prev s
  | .plusP p, prev, s => (clsRun p prev s).flatMap (fun st => starRun p st.1 st.2)
  | .repP n p, prev, s => (repRun p n prev s).toList
  | .wordB, prev, s => if isWordO prev ≠ isWordO s.head? then [(prev, s)] else []
  | .seq a b, prev, s => (runRE a prev s).flatMap (fun st => runRE b st.1 st.2)

/-- `re.search` over a character list: try every start position. -/
def searchFrom (r : RE) : Option Char → List Char → Bool
  | prev, [] => !(runRE r prev []).isEmpty
  | prev, c :: rest => !(runRE r prev (c :: rest)).isEmpty || searchFrom r (some c) rest

/-- The source compiles every pattern group with `re.IGNORECASE`; matching the
lower-cased text against lower-cased pattern literals is equivalent for the
character classes the patterns use. -/
def reSearch (r : RE) (text : String) : Bool :=
  searchFrom r none (text.data.map Char.toLower)

/-- Shorthand for a literal pattern. -/
def rlit (s : String) : RE := .lit s.data

/-- Right-nested sequence of regex fragments. -/
def seqs : List RE → RE
  | [] => .eps
  | [r] => r
  | r :: rs => .seq r (seqs rs)

/-- `\s` (ASCII whitespace, as the source patterns are applied to ASCII text). -/
def isSpaceCh (c : Char) : Bool :=
  c = ' ' || c = '\t' || c = '\n' || c = '\r' || c = '\x0b' || c = '\x0c'

/-- `[^\s]`. -/
def notSpaceCh (c : Char) : Bool := !isSpaceCh c

/-- Python `str.strip()` with the default whitespace set (which is the same
set as `\s` on ASCII text). -/
def pyStrip (s : String) : String :=
  ⟨((s.data.dropWhile isSpaceCh).reverse.dropWhile isSpaceCh).reverse⟩

/-- `\d`. -/
def isDigitCh (c : Char) : Bool := c.isDigit

/-- `[a-f0-9]` (after lower-casing, this also covers the upper-case hex
digits accepted via `re.IGNORECASE`). -/
def isHexCh (c : Char) : Bool := c.isDigit || ('a' ≤ c && c ≤ 'f')

/-! ## GerritPatternMatcher pattern tables (journal_filters.py lines 31-60) -/

/-- `PRIMARY_PATTERNS`: `\*Gerrit change\* submitted`. -/
def PRIMARY_PATTERNS : List RE :=
  [rlit "*gerrit change* submitted"]

/-- `SECONDARY_PATTERNS`: `\*\(Gerrit review\)\*`, `Gerrit change`, `Gerrit review`. -/
def SECONDARY_PATTERNS : List RE :=
  [rlit "*(gerrit review)*", rlit "gerrit change", rlit "gerrit review"]

/-- `URL_PATTERNS`:
`https?://[^\s]*gerrit[^\s]*/r/c/\d+(?:/\d+)?`, `/r/c/\d+/\d+`, `/r/c/\d+`. -/
def URL_PATTERNS : List RE :=
  [seqs [rlit "http", .opt (rlit "s"), rlit "://", .starP notSpaceCh, rlit "gerrit",
         .starP notSpaceCh, rlit "/r/c/", .plusP isDigitCh,
         .opt (seqs [rlit "/", .plusP isDigitCh])],
   seqs [rlit "/r/c/", .plusP isDigitCh, rlit "/", .plusP isDigitCh],
   seqs [rlit "/r/c/", .plusP isDigitCh]]

/-- `COMMIT_PATTERNS`:
`Commit:\s*\b[a-f0-9]{40}\b`, `Issue\s*#\d+:`, `\b[a-f0-9]{40}\b`. -/
def COMMIT_PATTERNS : List RE :=
  [seqs [rlit "commit:", .starP isSpaceCh, .wordB, .repP 40 isHexCh, .wordB],
   seqs [rlit "issue", .starP isSpaceCh, rlit "#", .plusP isDigitCh, rlit ":"],
   seqs [.wordB, .repP 40 isHexCh, .wordB]]

/-- `TEXTILE_PATTERNS`:
`\*"[^"]*":https?://[^\s]*gerrit[^\s]*` and `p\(\(\(\.\s*\*Issue\s*#\d+:`. -/
def TEXTILE_PATTERNS : List RE :=
  [seqs [rlit "*\"", .starP (fun c => c ≠ '"'), rlit "\":http", .opt (rlit "s"),
         rlit "://", .starP notSpaceCh, rlit "gerrit", .starP notSpaceCh],
   seqs [rlit "p(((.", .starP isSpaceCh, rlit "*issue", .starP isSpaceCh,
         rlit "#", .plusP isDigitCh, rlit ":"]]

/-- The general code-review keyword patterns of
`contains_code_review_patterns` (journal_filters.py lines 209-217), each a
whole-word, case-insensitive match. -/
def code_review_keywords : List RE :=
  ["review", "reviewed", "reviewing",
   "approved", "approve", "approval",
   "rejected", "reject", "rejection",
   "commit", "committed", "commits",
   "merge", "merged", "merging",
   "pull request", "pr",
   "code review", "peer review"].map
    (fun w => seqs [.wordB, rlit w, .wordB])

/-- Number of patterns of a group that match the text
(`sum(1 for pattern in group if pattern.search(text))`). -/
def countGroup (pats : List RE) (text : String) : Nat :=
  (pats.filter (fun p => reSearch p text)).length

/-- `secondary_matches` in `is_gerrit_entry`. -/
def secondary_matches (text : String) : Nat := countGroup SECONDARY_PATTERNS text

/-- `url_matches` in `is_gerrit_entry`. -/
def url_matches (text : String) : Nat := countGroup URL_PATTERNS text

/-- `commit_matches` in `is_gerrit_entry`. -/
def commit_matches (text : String) : Nat := countGroup COMMIT_PATTERNS text

/-- `textile_matches` in `is_gerrit_entry`. -/
def textile_matches (text : String) : Nat := countGroup TEXTILE_PATTERNS text

/-- `total_indicators` in `is_gerrit_entry`. -/
def total_indicators (text : String) : Nat :=
  secondary_matches text + url_matches text + commit_matches text + textile_matches text

/-- `present_groups` in `is_gerrit_entry`: how many of the four non-primary
groups have at least one match. -/
def present_groups (text : String) : Nat :=
  (([secondary_matches text, url_matches text, commit_matches text,
     textile_matches text]).filter (fun n => 0 < n)).length

/-- `GerritPatternMatcher.is_gerrit_entry` (journal_filters.py lines 72-103).
The `not text or not isinstance(text, str)` guard becomes an empty-string
test, since the embedded input is always a string. -/
def is_gerrit_entry (text : String) : Bool :=
  if text = "" then false
  else if PRIMARY_PATTERNS.any (fun p => reSearch p text) then true
  else decide (2 ≤ present_groups text ∧ 2 ≤ total_indicators text)

/-! ## Textile markup extraction (parse_textile_markup, lines 105-149)

`has_textile_gerrit_formatting` consumes only the `links` and `bold_text`
fields of `parse_textile_markup`; the `paragraphs` and `issue_references`
fields are not consumed by any embedded function and are omitted.  The
extraction patterns `\*([^*]+)\*` and `"([^"]+)":([^\s*]+)` are compiled
without `re.IGNORECASE` and contain no cased literal, so they are modelled
directly as scanners over the original character sequence, with
`re.finditer` semantics (leftmost, non-overlapping matches). -/

/-- Scanner for `re.finditer(r'\*([^*]+)\*', text)`.  The state `some acc`
means an opening `*` has been read and `acc` holds (reversed) the non-`*`
characters read since.  On a closing `*` the captured group is emitted and
scanning resumes after it; if the character right after an opening `*` is
again `*`, the first match attempt fails and the regex engine restarts at
the second `*`, which therefore becomes the new opener. -/
def bold_text_spans_go (st : Option (List Char)) : List Char → List (List Char)
  | [] => []
  | c :: rest =>
      match st with
      | none =>
          if c = '*' then bold_text_spans_go (some []) rest
          else bold_text_spans_go none rest
      | some acc =>
          if c = '*' then
            if acc.isEmpty then bold_text_spans_go (some []) rest
            else acc.reverse :: bold_text_spans_go none rest
          else bold_text_spans_go (some (c :: acc)) rest

/-- The `bold_text` list of `parse_textile_markup`: all captured groups of
`\*([^*]+)\*`, left to right. -/
def bold_text_spans (l : List Char) : List (List Char) :=
  bold_text_spans_go none l

/-- Scanner state for the textile link pattern `"([^"]+)":([^\s*]+)`. -/
inductive LinkScanSt where
  | out
  | ltext (acc : List Char)
  | colon (t : List Char)
  | url (t : List Char) (acc : List Char)

/-- Scanner for `re.finditer` over `"([^"]+)":([^\s*]+)`.
States: `out` = scanning for an opening quote; `ltext acc` = inside the
`[^"]+` group (reversed accumulator); `colon t` = the closing quote of a
non-empty text group `t` has been read and `:` is expected; `url t acc` =
inside the `[^\s*]+` group.  When a match attempt fails, the regex engine
restarts one position after the failed opening quote; since the text group
contains no quote, the next viable opening quote is the closing quote just
read, whose span then starts at the current character (preceded by the
already-consumed `:` in the empty-url case). -/
def textile_links_go (st : LinkScanSt) : List Char → List (List Char × List Char)
  | [] =>
      match st with
      | .url t acc => if acc.isEmpty then [] else [(t, acc.reverse)]
      | _ => []
  | c :: rest =>
      match st with
      | .out =>
          if c = '"' then textile_links_go (.ltext []) rest
          else textile_links_go .out rest
      | .ltext acc =>
          if c = '"' then
            if acc.isEmpty then textile_links_go (.ltext []) rest
            else textile_links_go (.colon acc.reverse) rest
          else textile_links_go (.ltext (c :: acc)) rest
      | .colon t =>
          if c = ':' then textile_links_go (.url t []) rest
          else if c = '"' then textile_links_go (.ltext []) rest
          else textile_links_go (.ltext [c]) rest
      | .url t acc =>
          if notSpaceCh c && c != '*' then textile_links_go (.url t (c :: acc)) rest
          else if acc.isEmpty then
            (if c = '"' then textile_links_go (.colon [':']) rest
             else textile_links_go (.ltext [c, ':']) rest)
          else
            (t, acc.reverse) ::
              (if c = '"' then textile_links_go (.ltext []) rest
               else textile_links_go .out rest)

/-- The `links` list of `parse_textile_markup`: all `(text, url)` captured
pairs of `"([^"]+)":([^\s*]+)`, left to right. -/
def textile_links (l : List Char) : List (List Char × List Char) :=
  textile_links_go .out l

/-- Python's `needle in haystack` substring test. -/
def containsSub (pat : List Char) : List Char → Bool
  | [] => pat.isEmpty
  | c :: r => pat.isPrefixOf (c :: r) || containsSub pat r

/-- `GerritPatternMatcher.has_textile_gerrit_formatting`
(journal_filters.py lines 151-182): a dedicated textile pattern matches, or
some extracted link URL contains `gerrit` (case-insensitively) or `/r/c/`,
or some bold span contains one of the keywords `gerrit`/`change`/`review`. -/
def has_textile_gerrit_formatting (text : String) : Bool :=
  if text = "" then false
  else if TEXTILE_PATTERNS.any (fun p => reSearch p text) then true
  else if (textile_links text.data).any (fun l =>
      containsSub "gerrit".data (l.2.map Char.toLower) || containsSub "/r/c/".data l.2) then
    true
  else (bold_text_spans text.data).any (fun b =>
      ["gerrit", "change", "review"].any
        (fun kw => containsSub kw.data (b.map Char.toLower)))

/-- `keyword_matches` in `contains_code_review_patterns`
(journal_filters.py lines 220-223). -/
def keyword_match_count (text : String) : Nat :=
  countGroup code_review_keywords text

/-- `GerritPatternMatcher.contains_code_review_patterns`
(journal_filters.py lines 184-226). -/
def contains_code_review_patterns (text : String) : Bool :=
  if text = "" then false
  else if is_gerrit_entry text then true
  else if has_textile_gerrit_formatting text then true
  else decide (2 ≤ keyword_match_count text)

/-! ## Journal filter processor (journal_filters.py lines 309-425) -/

/-- `JournalFilterConfig` (journal_filters.py lines 16-19). -/
structure JournalFilterConfig where
  code_review_only : Bool

/-- `JournalFilterProcessor._should_include_journal_aggressive`
(journal_filters.py lines 379-406).  The guard
`not notes or not isinstance(notes, str) or notes.strip() == ''` excludes a
missing `notes` key (the `''` default is falsy), any non-string value
(either falsy, or truthy but not a string), and blank strings.  A non-dict
entry raises `AttributeError` on `.get`, which the handler turns into
`False`. -/
def should_include_journal_aggressive (journal_entry : JValue) : Bool :=
  match journal_entry with
  | .obj fields =>
      match fields.lookup "notes" with
      | some (.str s) =>
          if s = "" || pyStrip s = "" then false
          else contains_code_review_patterns s
      | some _ => false
      | none => false
  | _ => false

/-- `JournalFilterProcessor._strip_details_field`
(journal_filters.py lines 408-425): copy the entry without its `details`
key; non-dict input is returned unchanged. -/
def strip_details_field (journal_entry : JValue) : JValue :=
  match journal_entry with
  | .obj fields => .obj (fields.filter (fun kv => kv.1 ≠ "details"))
  | v => v

/-- The accumulation loop of `JournalFilterProcessor.filter_journals`
(journal_filters.py lines 344-359).  The per-entry `try/except` cannot fire
in the total embedding; its `continue` behaviour coincides with the
exclusion of the entry. -/
def filter_journals_loop : List JValue → List JValue
  | [] => []
  | journal :: rest =>
      if should_include_journal_aggressive journal then
        strip_details_field journal :: filter_journals_loop rest
      else filter_journals_loop rest

/-- `JournalFilterProcessor.filter_journals`
(journal_filters.py lines 321-359). -/
def filter_journals (journals : List JValue) (config : JournalFilterConfig) :
    List JValue :=
  if !config.code_review_only then journals
  else filter_journals_loop journals

/-! ## Filter configuration (response_filters.py lines 21-31) -/

/-- `FilterConfig` (response_filters.py lines 21-31).  Integer options are
modelled as `Option Nat` (validation admits only positive values, and
Python truthiness makes `0` behave like an absent option). -/
structure FilterConfig where
  include_fields : Option (List String)
  exclude_fields : Option (List String)
  remove_empty : Bool
  remove_custom_fields : Bool
  keep_custom_fields : Option (List String)
  max_description_length : Option Nat
  max_array_items : Option Nat
  journals : Option JournalFilterConfig

/-- `isinstance(value, list)` shape test. -/
def JValue.isArrV : JValue → Bool
  | .arr _ => true
  | _ => false

/-- The items of a list value (only inspected when `isArrV` holds). -/
def JValue.arrItems : JValue → List JValue
  | .arr items => items
  | _ => []

/-- `isinstance(value, str)` shape test. -/
def JValue.isStrV : JValue → Bool
  | .str _ => true
  | _ => false

/-- The characters of a string value (only inspected when `isStrV` holds). -/
def JValue.strVal : JValue → String
  | .str s => s
  | _ => ""

/-- `is_empty_value` (response_filters.py lines 277-293). -/
def is_empty_value : JValue → Bool
  | .null => true
  | .str s => pyStrip s = ""
  | .arr items => items.isEmpty
  | .obj fields => fields.isEmpty
  | _ => false

/-- `filter_custom_fields` (response_filters.py lines 256-274): keep the
custom-field dicts whose `name` value is one of `keep_fields`
(`field.get("name", "")` defaults to the empty string; a non-string name is
never equal to a member of the string list). -/
def filter_custom_fields (custom_fields : List JValue) (keep_fields : List String) :
    List JValue :=
  custom_fields.filter (fun field =>
    match field with
    | .obj kvs =>
        match kvs.lookup "name" with
        | some (.str s) => keep_fields.contains s
        | some _ => false
        | none => keep_fields.contains ""
    | _ => keep_fields.contains "")

/-- The wrapper keys of `filter_dict` (response_filters.py line 204) that
always survive `include_fields` filtering. -/
def wrapperKeys : List String := ["issue", "issues", "projects", "users", "time_entries"]

/-- The long-text keys of `filter_dict` (response_filters.py line 224). -/
def longTextKeys : List String := ["description", "notes", "text"]

/-- The fixed truncation marker appended by `filter_dict`
(response_filters.py line 228). -/
def truncationMarker : String := "... [truncated]"

mutual

/-- `filter_data` (response_filters.py lines 163-179): dispatch on shape. -/
def filter_data (data : JValue) (config : FilterConfig) : JValue :=
  match data with
  | .obj fields => .obj (filter_dict fields config)
  | .arr items => .arr (filter_list items config 0)
  | v => v
termination_by (sizeOf data, 0)

/-- The per-key body of the loop of `filter_dict`
(response_filters.py lines 186-231); `none` models `continue` without an
assignment. -/
def filter_entry (config : FilterConfig) (key : String) (value : JValue) :
    Option (String × JValue) :=
  if config.remove_empty && is_empty_value value then none
  else if key == "custom_fields" && value.isArrV then
    (if config.remove_custom_fields then none
     else if listTruthy config.keep_custom_fields then
       (let kept := filter_custom_fields value.arrItems (config.keep_custom_fields.getD [])
        if kept.isEmpty then none else some (key, .arr kept))
     else filter_entry_rest config key value)
  else filter_entry_rest config key value
termination_by (sizeOf value, 2)

/-- Steps 3-6 of the `filter_dict` loop body: include/exclude selection
(lines 201-210), journal delegation (lines 212-221), long-text truncation
(lines 223-228), and the recursive default (line 231).  The `try/except`
around the journal delegation cannot fire in the total embedding. -/
def filter_entry_rest (config : FilterConfig) (key : String) (value : JValue) :
    Option (String × JValue) :=
  if listTruthy config.include_fields && !wrapperKeys.contains key
      && !(config.include_fields.getD []).contains key then none
  else if !listTruthy config.include_fields && listTruthy config.exclude_fields
      && (config.exclude_fields.getD []).contains key then none
  else if key == "journals" && value.isArrV && config.journals.isSome then
    some (key, .arr (filter_journals value.arrItems (config.journals.getD ⟨false⟩)))
  else if longTextKeys.contains key && value.isStrV
      && natTruthy config.max_description_length
      && (config.max_description_length.getD 0) < value.strVal.length then
    some (key, .str (value.strVal.take (config.max_description_length.getD 0)
                      ++ truncationMarker))
  else some (key, filter_data value config)
termination_by (sizeOf value, 1)

/-- The loop of `filter_dict` (response_filters.py lines 182-233) over the
dict items in insertion order; since Python dict keys are unique, each
`filtered[key] = …` assignment appends a fresh key. -/
def filter_dict (fields : List (String × JValue)) (config : FilterConfig) :
    List (String × JValue) :=
  match fields with
  | [] => []
  | (key, value) :: rest =>
      match filter_entry config key value with
      | some kv => kv :: filter_dict rest config
      | none => filter_dict rest config
termination_by (sizeOf fields, 3)

/-- `filter_list` (response_filters.py lines 236-253); `count` is the
length of the `filtered` accumulator so far, used by the
`len(filtered) >= config.max_array_items` break. -/
def filter_list (items : List JValue) (config : FilterConfig) (count : Nat) :
    List JValue :=
  match items with
  | [] => []
  | item :: rest =>
      let filtered_item := filter_data item config
      if config.remove_empty && is_empty_value filtered_item then
        filter_list rest config count
      else if natTruthy config.max_array_items
          && (config.max_array_items.getD 0) ≤ count + 1 then
        [filtered_item]
      else filtered_item :: filter_list rest config (count + 1)
termination_by (sizeOf items, 3)

end

/-! ## Validation and the orchestrator (response_filters.py lines 34-160) -/

/-- `isinstance(x, str)` over a `JValue`. -/
def JValue.isStrItem : JValue → Bool
  | .str _ => true
  | _ => false

/-- The journal block of `validate_filter_config`
(response_filters.py lines 46-61): unknown keys of a `journals` dict, the
type of `code_review_only`, and non-dict `journals` values. -/
def validate_journals_part (mcp_filter : JObj) : List String :=
  match mcp_filter.lookup "journals" with
  | none => []
  | some (.obj journals_config) =>
      (journals_config.filterMap (fun kv =>
        if kv.1 ≠ "code_review_only" then
          some ("Invalid journal filter option: " ++ kv.1
                ++ ". Valid options: \x7b'code_review_only'\x7d")
        else none))
      ++ (match journals_config.lookup "code_review_only" with
          | some (.bool _) => []
          | some _ => ["code_review_only must be a boolean value"]
          | none => [])
  | some _ => ["journals filter must be a dictionary"]

/-- A `must be a positive integer` check of `validate_filter_config`
(response_filters.py lines 64-70). -/
def validate_positive_int (mcp_filter : JObj) (key : String) : List String :=
  match mcp_filter.lookup key with
  | none => []
  | some (.num n) => if n ≤ 0 then [key ++ " must be a positive integer"] else []
  | some _ => [key ++ " must be a positive integer"]

/-- A `must be a list of strings` check of `validate_filter_config`
(response_filters.py lines 72-88). -/
def validate_string_list (mcp_filter : JObj) (key : String) : List String :=
  match mcp_filter.lookup key with
  | none => []
  | some (.arr items) =>
      if items.all JValue.isStrItem then []
      else [key ++ " list items must be strings"]
  | some _ => [key ++ " must be a list of strings"]

/-- A `must be a boolean value` check of `validate_filter_config`
(response_filters.py lines 90-93). -/
def validate_boolean (mcp_filter : JObj) (key : String) : List String :=
  match mcp_filter.lookup key with
  | none => []
  | some (.bool _) => []
  | some _ => [key ++ " must be a boolean value"]

/-- `validate_filter_config` (response_filters.py lines 34-95), collecting
all violations in source order. -/
def validate_filter_config (mcp_filter : JObj) : List String :=
  validate_journals_part mcp_filter
    ++ validate_positive_int mcp_filter "max_description_length"
    ++ validate_positive_int mcp_filter "max_array_items"
    ++ validate_string_list mcp_filter "include_fields"
    ++ validate_string_list mcp_filter "exclude_fields"
    ++ validate_string_list mcp_filter "keep_custom_fields"
    ++ validate_boolean mcp_filter "remove_empty"
    ++ validate_boolean mcp_filter "remove_custom_fields"

/-- An optional list-of-strings option as fetched by `mcp_filter.get(...)`
(on the non-error path, validation guarantees every item is a string). -/
def getStrList (mcp_filter : JObj) (key : String) : Option (List String) :=
  match mcp_filter.lookup key with
  | some (.arr items) => some (items.filterMap (fun v =>
      match v with
      | .str s => some s
      | _ => none))
  | _ => none

/-- A boolean option as fetched by `mcp_filter.get(key, False)`; a non-bool
value would later be used for its truthiness. -/
def getBoolOpt (mcp_filter : JObj) (key : String) : Bool :=
  match mcp_filter.lookup key with
  | some v => jTruthy v
  | none => false

/-- An optional positive-int option as fetched by `mcp_filter.get(...)` (on
the non-error path, validation guarantees a positive integer). -/
def getNatOpt (mcp_filter : JObj) (key : String) : Option Nat :=
  match mcp_filter.lookup key with
  | some (.num n) => some n.toNat
  | _ => none

/-- The `journals_config` parsing of `apply_response_filter`
(response_filters.py lines 126-135): a dict yields a
`JournalFilterConfig` with `journals_dict.get("code_review_only", False)`;
a present non-dict value is logged and yields `None`. -/
def parse_journals_config (mcp_filter : JObj) : Option JournalFilterConfig :=
  match mcp_filter.lookup "journals" with
  | some (.obj journals_dict) =>
      some ⟨match journals_dict.lookup "code_review_only" with
            | some v => jTruthy v
            | none => false⟩
  | some _ => none
  | none => none

/-- The `FilterConfig(...)` construction of `apply_response_filter`
(response_filters.py lines 137-146). -/
def parse_filter_config (mcp_filter : JObj) : FilterConfig :=
  ⟨getStrList mcp_filter "include_fields",
   getStrList mcp_filter "exclude_fields",
   getBoolOpt mcp_filter "remove_empty",
   getBoolOpt mcp_filter "remove_custom_fields",
   getStrList mcp_filter "keep_custom_fields",
   getNatOpt mcp_filter "max_description_length",
   getNatOpt mcp_filter "max_array_items",
   parse_journals_config mcp_filter⟩

/-- Python dict assignment `d[key] = value`: replace in place if the key
exists, else append. -/
def setKey (obj : JObj) (key : String) (value : JValue) : JObj :=
  if (obj.lookup key).isSome then
    obj.map (fun kv => if kv.1 = key then (key, value) else kv)
  else obj ++ [(key, value)]

/-- The pass-through guard of `apply_response_filter`
(response_filters.py line 110):
`response.get("status_code", 0) != 200 or response.get("error")`. -/
def passthrough_guard (response : JObj) : Bool :=
  (match response.lookup "status_code" with
   | some (.num 200) => false
   | some _ => true
   | none => true)
  || (match response.lookup "error" with
      | some v => jTruthy v
      | none => false)

/-- The `try` block of `apply_response_filter`
(response_filters.py lines 116-155), parameterised by the body-filtering
engine so that a failing engine models an exception raised on the filtered
path.  On validation errors the body is left untouched but the
`mcp_filtered` flag is still set; otherwise the parsed configuration is
applied to a truthy `body` and the flag is set. -/
def apply_filter_attempt (engine : FilterConfig → JValue → Except String JValue)
    (response : JObj) (mcp_filter : JObj) : Except String JObj :=
  let validation_errors := validate_filter_config mcp_filter
  if !validation_errors.isEmpty then
    .ok (setKey response "mcp_filtered" (.bool true))
  else
    let config := parse_filter_config mcp_filter
    match response.lookup "body" with
    | some body =>
        if jTruthy body then
          (engine config body).map (fun new_body =>
            setKey (setKey response "body" new_body) "mcp_filtered" (.bool true))
        else .ok (setKey response "mcp_filtered" (.bool true))
    | none => .ok (setKey response "mcp_filtered" (.bool true))

/-- `apply_response_filter` (response_filters.py lines 98-160),
parameterised by the engine: the pass-through guard, then the `try` block;
the `except` handler returns the original response.  In Lean, values are
immutable, so the `copy.deepcopy` of line 114 is the identity and the
caller's envelope can never be mutated. -/
def apply_response_filter_with (engine : FilterConfig → JValue → Except String JValue)
    (response : JObj) (mcp_filter : JObj) : JObj :=
  if passthrough_guard response then response
  else
    match apply_filter_attempt engine response mcp_filter with
    | .ok filtered_response => filtered_response
    | .error _ => response

/-- The total engine actually installed: `filter_data` never raises in the
embedding. -/
def filter_data_engine (config : FilterConfig) (body : JValue) : Except String JValue :=
  .ok (filter_data body config)

/-- `apply_response_filter` with the concrete `filter_data` engine. -/
def apply_response_filter (response : JObj) (mcp_filter : JObj) : JObj :=
  apply_response_filter_with filter_data_engine response mcp_filter

/-- The spec-side acceptance test for a journal entry, following the spec's
words: the entry's `notes` field is a non-empty, non-whitespace-only string
that the classifier accepts. -/
def claim_notes_accepted (j : JValue) : Bool :=
  match j with
  | .obj fields =>
      match fields.lookup "notes" with
      | some (.str s) => !(pyStrip s == "") && contains_code_review_patterns s
      | _ => false
  | _ => false

/-- The configuration whose only active option is `remove_empty = true`. -/
def remove_empty_config : FilterConfig :=
  ⟨none, none, true, false, none, none, none, none⟩

/-- A scalar (non-container) value. -/
def ScalarV : JValue → Bool
  | .obj _ => false
  | .arr _ => false
  | _ => true

/-- Every mapping in the tree has only scalar values (list elements may
recursively be any such tree). -/
def ObjValsScalar : JValue → Bool
  | .obj fields => fields.all (fun kv => ScalarV kv.2)
  | .arr [] => true
  | .arr (x :: rest) => ObjValsScalar x && ObjValsScalar (.arr rest)
  | _ => true

/-! # Theorems -/

/-- The source's strict inclusion test agrees pointwise with the spec-side
acceptance test (the source additionally tests `not notes`, which is
subsumed: a blank string is in particular whitespace-only). -/
theorem should_include_eq_claim_notes_accepted (j : JValue) :
    should_include_journal_aggressive j = claim_notes_accepted j := by
  match j with
  | .null | .bool _ | .num _ | .str _ | .arr _ =>
      simp [should_include_journal_aggressive, claim_notes_accepted]
  | .obj fields =>
      simp only [should_include_journal_aggressive, claim_notes_accepted]
      match fields.lookup "notes" with
      | some (.str s) =>
          by_cases h1 : pyStrip s = ""
          · simp [h1]
          · have hs0 : s ≠ "" := fun h0 => h1 (by rw [h0]; decide)
            simp [h1, hs0]
      | some .null | some (.bool _) | some (.num _) | some (.arr _) | some (.obj _) => rfl
      | none => rfl

/-- C1: for every envelope rejected by the pass-through guard
(`status_code != 200`, or a truthy `error` field — in particular a
non-empty error string), the orchestrator returns the original envelope
itself: no `mcp_filtered` marker is added and nothing else changes. -/
theorem C1_error_envelope_passes_through_unchanged
    (response mcp_filter : JObj) (h : passthrough_guard response = true) :
    apply_response_filter response mcp_filter = response := by
  simp [apply_response_filter, apply_response_filter_with, h]

/-- Witness for C1 at a concrete 404 envelope with a non-empty error. -/
theorem C1_error_envelope_passes_through_unchanged_witness :
    passthrough_guard [("status_code", .num 404), ("error", .str "HTTPError: 404")] = true ∧
    apply_response_filter [("status_code", .num 404), ("error", .str "HTTPError: 404")]
        [("remove_empty", .bool true)]
      = [("status_code", .num 404), ("error", .str "HTTPError: 404")] :=
  ⟨by decide,
   C1_error_envelope_passes_through_unchanged
     [("status_code", .num 404), ("error", .str "HTTPError: 404")]
     [("remove_empty", .bool true)] (by decide)⟩

/-- C2: if the filtered path raises (modelled by an engine returning an
error while validating/parsing succeeded and the body is being filtered),
the orchestrator swallows the exception and returns the original envelope,
without the `mcp_filtered` marker; since the embedding is a total function
over immutable values, no exception propagates past the orchestrator and
the caller's envelope is never mutated. -/
theorem C2_exception_on_filtered_path_returns_original
    (engine : FilterConfig → JValue → Except String JValue)
    (response mcp_filter : JObj) (e : String)
    (h : apply_filter_attempt engine response mcp_filter = .error e) :
    apply_response_filter_with engine response mcp_filter = response := by
  by_cases hp : passthrough_guard response = true
  · simp [apply_response_filter_with, hp]
  · simp only [Bool.not_eq_true] at hp
    simp [apply_response_filter_with, hp, h]

/-- Witness for C2: an engine that always raises, a 200 envelope with a
truthy body; the attempt errors and the original envelope comes back. -/
theorem C2_exception_on_filtered_path_returns_original_witness :
    apply_filter_attempt (fun _ _ => .error "boom")
        [("status_code", .num 200), ("body", .str "x"), ("error", .str "")] []
      = .error "boom" ∧
    apply_response_filter_with (fun _ _ => .error "boom")
        [("status_code", .num 200), ("body", .str "x"), ("error", .str "")] []
      = [("status_code", .num 200), ("body", .str "x"), ("error", .str "")] :=
  ⟨rfl,
   C2_exception_on_filtered_path_returns_original (fun _ _ => .error "boom")
     [("status_code", .num 200), ("body", .str "x"), ("error", .str "")] [] "boom" rfl⟩

/-- C3: with `code_review_only` enabled, `filter_journals` returns exactly
the entries accepted by the strict notes test — in input order, each with
its `details` key removed — and the strict test accepts precisely the
entries whose `notes` value is a non-blank string that
`contains_code_review_patterns` accepts (so detail-only entries are never
retained; the embedding is total, so no exception reaches the caller). -/
theorem C3_filter_journals_keeps_exactly_accepted_notes_in_order :
    (∀ journals : List JValue,
      filter_journals journals ⟨true⟩
        = (journals.filter claim_notes_accepted).map strip_details_field) ∧
    (∀ j : JValue,
      should_include_journal_aggressive j = claim_notes_accepted j) := by
  refine ⟨?_, should_include_eq_claim_notes_accepted⟩
  intro journals
  simp only [filter_journals, Bool.not_true, Bool.false_eq_true, if_false]
  induction journals with
  | nil => rfl
  | cons j rest ih =>
      by_cases hj : claim_notes_accepted j = true
      · have hj' : should_include_journal_aggressive j = true := by
          rw [should_include_eq_claim_notes_accepted]; exact hj
        simp [filter_journals_loop, hj, hj', ih]
      · simp only [Bool.not_eq_true] at hj
        have hj' : should_include_journal_aggressive j = false := by
          rw [should_include_eq_claim_notes_accepted]; exact hj
        simp [filter_journals_loop, hj, hj', ih]

/-- C7: on any text with no primary-pattern hit, `is_gerrit_entry` decides
exactly the cross-group corroboration rule: at least two of the four
non-primary groups present and at least two total indicators. -/
theorem C7_cross_group_rule_characterises_gerrit_entry
    (text : String)
    (h : PRIMARY_PATTERNS.any (fun p => reSearch p text) = false) :
    is_gerrit_entry text
      = decide (2 ≤ present_groups text ∧ 2 ≤ total_indicators text) := by
  by_cases he : text = ""
  · subst he; decide
  · simp [is_gerrit_entry, he, h]

/-- Witness for C7: the standalone word `review` matches no primary
pattern and is classified false. -/
theorem C7_cross_group_rule_characterises_gerrit_entry_witness :
    is_gerrit_entry "review" = false :=
  (C7_cross_group_rule_characterises_gerrit_entry "review" (by decide)).trans (by decide)

/-- Counterexample to C5: on `"reviewed reviewing"` the Gerrit check and
the markup signal both fail and the only matching keyword patterns are the
two inflections of `review` (one keyword category in the claim's sense),
yet the classifier returns true — the code counts matching *patterns*, not
distinct categories. -/
theorem C5_counterexample_two_inflections_classified_true :
    is_gerrit_entry "reviewed reviewing" = false ∧
    has_textile_gerrit_formatting "reviewed reviewing" = false ∧
    code_review_keywords.map (fun p => reSearch p "reviewed reviewing")
      = [false, true, true, false, false, false, false, false, false, false,
         false, false, false, false, false, false, false, false, false] ∧
    contains_code_review_patterns "reviewed reviewing" = true := by
  refine ⟨by decide, by decide, by decide, by decide⟩

/-- C5 as amended: when the Gerrit check and the markup signal fail, the
keyword fallback returns true iff at least two of the fixed keyword
*patterns* match (the list holds a separate pattern per inflected form, so
two inflections of one word suffice). -/
theorem C5_amended_keyword_fallback_counts_patterns
    (text : String)
    (h1 : is_gerrit_entry text = false)
    (h2 : has_textile_gerrit_formatting text = false) :
    contains_code_review_patterns text = decide (2 ≤ keyword_match_count text) := by
  by_cases he : text = ""
  · subst he; decide
  · simp [contains_code_review_patterns, he, h1, h2]

/-- Witness for C5 at `"merged and approved"`: Gerrit and markup checks
fail, two keyword patterns match, classification is true. -/
theorem C5_amended_keyword_fallback_counts_patterns_witness :
    contains_code_review_patterns "merged and approved" = true :=
  (C5_amended_keyword_fallback_counts_patterns "merged and approved"
    (by decide) (by decide)).trans (by decide)

/-- C10: the markup signal is a separate acceptance branch — any text on
which `has_textile_gerrit_formatting` holds is classified as code-review
activity by `contains_code_review_patterns`. -/
theorem C10_markup_signal_branch_accepts
    (text : String) (h : has_textile_gerrit_formatting text = true) :
    contains_code_review_patterns text = true := by
  by_cases he : text = ""
  · rw [he] at h
    exact absurd h (by decide)
  · by_cases hg : is_gerrit_entry text = true
    · simp [contains_code_review_patterns, he, hg]
    · simp only [Bool.not_eq_true] at hg
      simp [contains_code_review_patterns, he, hg, h]

/-- Witness for C10 at `"*change*"`: a single bold span containing
`change`, no primary pattern, no second pattern group, no keyword match —
accepted solely through the markup branch. -/
theorem C10_markup_signal_branch_accepts_witness :
    has_textile_gerrit_formatting "*change*" = true ∧
    is_gerrit_entry "*change*" = false ∧
    keyword_match_count "*change*" = 0 ∧
    contains_code_review_patterns "*change*" = true :=
  ⟨by decide, by decide, by decide,
   C10_markup_signal_branch_accepts "*change*" (by decide)⟩

/-- Counterexample to C6: with `max_array_items = 1` and *no* journal
policy, a `journals` list is a generic array and *is* truncated by the
array bound, contradicting the claim's "whether or not a journal policy is
configured". -/
theorem C6_counterexample_journals_truncated_without_policy :
    filter_data (.obj [("journals", .arr [.num 1, .num 2])])
        ⟨none, none, false, false, none, none, some 1, none⟩
      = .obj [("journals", .arr [.num 1])] := by
  simp [filter_data, filter_dict, filter_entry, filter_entry_rest, filter_list,
        listTruthy, natTruthy, is_empty_value, JValue.isArrV, JValue.isStrV]

/-- C6 as amended: when a journal policy *is* configured, the `journals`
value is replaced by the journal-filter output and the `max_array_items`
bound never truncates it, whatever the bound is; without a policy the
journals list is subject to the generic array bound. -/
theorem C6_amended_policy_journals_never_truncated
    (js : List JValue) (jconfig : JournalFilterConfig) (n : Nat) :
    filter_data (.obj [("journals", .arr js)])
        ⟨none, none, false, false, none, none, some n, some jconfig⟩
      = .obj [("journals", .arr (filter_journals js jconfig))] := by
  simp [filter_data, filter_dict, filter_entry, filter_entry_rest,
        listTruthy, natTruthy, is_empty_value, JValue.isArrV, JValue.isStrV,
        JValue.arrItems]

/-- The long-text configuration used by C9: only `max_description_length`
is active. -/
theorem C9_long_text_truncation
    (data : JObj) (k s : String) (n : Nat)
    (hk : longTextKeys.contains k = true)
    (hmem : (k, JValue.str s) ∈ data)
    (hn : 0 < n) :
    (n < s.length →
      (k, JValue.str (s.take n ++ truncationMarker))
        ∈ filter_dict data ⟨none, none, false, false, none, some n, none, none⟩) ∧
    (s.length ≤ n →
      (k, JValue.str s)
        ∈ filter_dict data ⟨none, none, false, false, none, some n, none, none⟩) := by
  have hn0 : (n : Nat) ≠ 0 := Nat.pos_iff_ne_zero.mp hn
  have hk' : k ∈ longTextKeys := by simpa using hk
  induction data with
  | nil => simp at hmem
  | cons kv rest ih =>
      rcases List.mem_cons.mp hmem with heq | hmemr
      · subst heq
        constructor
        · intro hlt
          have hfe : filter_entry ⟨none, none, false, false, none, some n, none, none⟩
              k (JValue.str s) = some (k, .str (s.take n ++ truncationMarker)) := by
            simp [filter_entry, filter_entry_rest, listTruthy, natTruthy,
                  JValue.isArrV, JValue.isStrV, JValue.strVal, hk', hlt, hn0]
          simp [filter_dict, hfe]
        · intro hle
          have hnlt : ¬ (n < s.length) := by omega
          have hfe : filter_entry ⟨none, none, false, false, none, some n, none, none⟩
              k (JValue.str s) = some (k, .str s) := by
            simp [filter_entry, filter_entry_rest, listTruthy, natTruthy,
                  JValue.isArrV, JValue.isStrV, JValue.strVal, hk', hnlt, filter_data]
          simp [filter_dict, hfe]
      · obtain ⟨k1, v1⟩ := kv
        have ihr := ih hmemr
        constructor
        · intro hlt
          have hmem2 := ihr.1 hlt
          cases hfe : filter_entry ⟨none, none, false, false, none, some n, none, none⟩ k1 v1 with
          | some kv' =>
              simp only [filter_dict, hfe]
              exact List.mem_cons_of_mem kv' hmem2
          | none => simpa [filter_dict, hfe] using hmem2
        · intro hle
          have hmem2 := ihr.2 hle
          cases hfe : filter_entry ⟨none, none, false, false, none, some n, none, none⟩ k1 v1 with
          | some kv' =>
              simp only [filter_dict, hfe]
              exact List.mem_cons_of_mem kv' hmem2
          | none => simpa [filter_dict, hfe] using hmem2

/-- Witness for C9: the spec's example pair — a 60-character description
with limit 20 becomes the 20-character prefix plus the marker; a
15-character one is unchanged. -/
theorem C9_long_text_truncation_witness :
    (("description",
      JValue.str ((String.mk (List.replicate 60 'a')).take 20 ++ truncationMarker))
        ∈ filter_dict [("description", JValue.str (String.mk (List.replicate 60 'a')))]
            ⟨none, none, false, false, none, some 20, none, none⟩) ∧
    (("description", JValue.str (String.mk (List.replicate 15 'a')))
        ∈ filter_dict [("description", JValue.str (String.mk (List.replicate 15 'a')))]
            ⟨none, none, false, false, none, some 20, none, none⟩) :=
  ⟨(C9_long_text_truncation
      [("description", JValue.str (String.mk (List.replicate 60 'a')))]
      "description" (String.mk (List.replicate 60 'a')) 20
      (by decide) (List.mem_singleton.mpr rfl) (by decide)).1 (by decide),
   (C9_long_text_truncation
      [("description", JValue.str (String.mk (List.replicate 15 'a')))]
      "description" (String.mk (List.replicate 15 'a')) 20
      (by decide) (List.mem_singleton.mpr rfl) (by decide)).2 (by decide)⟩

/-- Per-entry key retention under a non-empty `include_fields` with the
emptiness and custom-field options off: an entry is kept (with its key
unchanged) iff its key is a wrapper key or a member of `include_fields`,
regardless of `exclude_fields`. -/
theorem filter_entry_include_keys
    (k : String) (v : JValue) (inc : List String) (exc : Option (List String))
    (mdl mai : Option Nat) (jp : Option JournalFilterConfig) (h : inc ≠ []) :
    (filter_entry ⟨some inc, exc, false, false, none, mdl, mai, jp⟩ k v).map Prod.fst
      = if wrapperKeys.contains k || inc.contains k then some k else none := by
  have hinc : listTruthy (some inc) = true := by simp [listTruthy, h]
  have he : filter_entry ⟨some inc, exc, false, false, none, mdl, mai, jp⟩ k v
      = filter_entry_rest ⟨some inc, exc, false, false, none, mdl, mai, jp⟩ k v := by
    simp [filter_entry, listTruthy]
  rw [he]
  by_cases hwk : k ∈ wrapperKeys <;> by_cases hik : k ∈ inc <;>
    simp [filter_entry_rest, hinc, hwk, hik] <;>
    (repeat' split) <;> simp_all

/-- Counterexample to C8: with `include_fields = ["id"]` and
`remove_empty = true`, the key `id` is a member of `include_fields` and is
nevertheless dropped (its value is empty), so "a key is kept iff it is a
member of `include_fields` or a wrapper key" fails as stated for arbitrary
configurations with `include_fields` set. -/
theorem C8_counterexample_remove_empty_drops_included_key :
    filter_data (.obj [("id", .null)])
        ⟨some ["id"], none, true, false, none, none, none, none⟩
      = .obj [] := by
  simp [filter_data, filter_dict, filter_entry, is_empty_value]

/-- C8 as amended: whenever `include_fields` is a non-empty list and the
emptiness and custom-field options are off, `exclude_fields` has no effect
on which keys survive at that level, and the surviving keys are exactly
those in `include_fields` or the wrapper-key set — in particular
`include_fields = ["id","journals"]` with `exclude_fields = ["journals"]`
retains `journals`. -/
theorem C8_amended_include_fields_wins
    (data : JObj) (inc : List String) (exc : Option (List String))
    (mdl mai : Option Nat) (jp : Option JournalFilterConfig) (h : inc ≠ []) :
    (filter_dict data ⟨some inc, exc, false, false, none, mdl, mai, jp⟩).map Prod.fst
      = (data.map Prod.fst).filter
          (fun k => wrapperKeys.contains k || inc.contains k) := by
  induction data with
  | nil => simp [filter_dict]
  | cons kv rest ih =>
      obtain ⟨k, v⟩ := kv
      have he := filter_entry_include_keys k v inc exc mdl mai jp h
      by_cases hkeep : (wrapperKeys.contains k || inc.contains k) = true
      · rw [if_pos hkeep] at he
        match hfe : filter_entry ⟨some inc, exc, false, false, none, mdl, mai, jp⟩ k v with
        | some kv' =>
            have hfst : kv'.1 = k := by
              rw [hfe] at he; simpa using he
            have hmem : k ∈ wrapperKeys ∨ k ∈ inc := by simpa using hkeep
            simp [filter_dict, hfe, hfst, List.filter_cons, hkeep, hmem, ih]
        | none => rw [hfe] at he; simp at he
      · rw [if_neg hkeep] at he
        have hkeep' : (wrapperKeys.contains k || inc.contains k) = false := by
          simpa using hkeep
        match hfe : filter_entry ⟨some inc, exc, false, false, none, mdl, mai, jp⟩ k v with
        | some kv' => rw [hfe] at he; simp at he
        | none =>
            have hmem : ¬(k ∈ wrapperKeys ∨ k ∈ inc) := by simpa using hkeep'
            simp [filter_dict, hfe, List.filter_cons, hkeep', hmem, ih]

/-- Witness for C8 at the spec's example:
`include_fields = ["id","journals"]`, `exclude_fields = ["journals"]` — the
surviving keys are `id` and `journals` (include wins over exclude). -/
theorem C8_amended_include_fields_wins_witness :
    (filter_dict
        [("id", JValue.num 1), ("journals", JValue.arr []), ("status", JValue.str "x")]
        ⟨some ["id", "journals"], some ["journals"], false, false, none, none, none, none⟩).map
        Prod.fst
      = ["id", "journals"] :=
  (C8_amended_include_fields_wins
      [("id", JValue.num 1), ("journals", JValue.arr []), ("status", JValue.str "x")]
      ["id", "journals"] (some ["journals"]) none none none (by decide)).trans
    (by decide)

/-- A scalar is left unchanged by `filter_data`. -/
theorem filter_data_scalar (v : JValue) (h : ScalarV v = true) :
    filter_data v remove_empty_config = v := by
  match v with
  | .null | .bool _ | .num _ | .str _ => simp [filter_data]
  | .arr _ | .obj _ => simp [ScalarV] at h

/-- Under the `remove_empty`-only configuration the per-key body reduces to
the emptiness test on the *original* value followed by recursion. -/
theorem filter_entry_remove_empty (k : String) (v : JValue) :
    filter_entry remove_empty_config k v
      = if is_empty_value v then none
        else some (k, filter_data v remove_empty_config) := by
  simp [filter_entry, filter_entry_rest, remove_empty_config, listTruthy, natTruthy]

/-- Under the `remove_empty`-only configuration, a mapping whose values are
all scalars filters to the sublist of its non-empty entries. -/
theorem filter_dict_remove_empty_scalar (fields : List (String × JValue))
    (h : fields.all (fun kv => ScalarV kv.2) = true) :
    filter_dict fields remove_empty_config
      = fields.filter (fun kv => !is_empty_value kv.2) := by
  induction fields with
  | nil => simp [filter_dict]
  | cons kv rest ih =>
      obtain ⟨k, v⟩ := kv
      rw [List.all_cons] at h
      rcases Bool.and_eq_true_iff.mp h with ⟨hv, hrest⟩
      by_cases hemp : is_empty_value v = true
      · simp [filter_dict, filter_entry_remove_empty, hemp, ih hrest]
      · simp only [Bool.not_eq_true] at hemp
        simp [filter_dict, filter_entry_remove_empty, hemp, ih hrest,
              filter_data_scalar v hv]

/-- Under the `remove_empty`-only configuration, `filter_list` maps the
filter over the elements and drops the elements whose *filtered* form is
empty (no array bound is active). -/
theorem filter_list_remove_empty (items : List JValue) (count : Nat) :
    filter_list items remove_empty_config count
      = (items.map (fun x => filter_data x remove_empty_config)).filter
          (fun y => !is_empty_value y) := by
  have h1 : remove_empty_config.remove_empty = true := rfl
  have h2 : natTruthy remove_empty_config.max_array_items = false := rfl
  induction items generalizing count with
  | nil => simp [filter_list]
  | cons x rest ih =>
      by_cases hemp : is_empty_value (filter_data x remove_empty_config) = true
      · simp [filter_list, h1, h2, hemp, ih]
      · simp only [Bool.not_eq_true] at hemp
        simp [filter_list, h1, h2, hemp, ih]

/-- The elements of a list tree all satisfy `ObjValsScalar` when the tree
does. -/
theorem ObjValsScalar_arr_mem (items : List JValue)
    (h : ObjValsScalar (.arr items) = true) :
    ∀ x ∈ items, ObjValsScalar x = true := by
  induction items with
  | nil => simp
  | cons a rest ih =>
      simp only [ObjValsScalar] at h
      rcases Bool.and_eq_true_iff.mp h with ⟨ha, hrest⟩
      intro x hx
      rcases List.mem_cons.mp hx with rfl | hx
      · exact ha
      · exact ih hrest x hx

/-- Counterexample to C4: with only `remove_empty`, filtering
`{"a": {"b": null}}` once yields `{"a": {}}` (the inner mapping loses its
only key but the outer check saw the original, non-empty value), and
filtering a second time drops `a` as well — so filtering twice differs from
filtering once. -/
theorem C4_counterexample_remove_empty_not_idempotent :
    filter_data (.obj [("a", .obj [("b", .null)])]) remove_empty_config
      = .obj [("a", .obj [])] ∧
    filter_data (filter_data (.obj [("a", .obj [("b", .null)])]) remove_empty_config)
        remove_empty_config
      = .obj [] ∧
    JValue.obj [("a", .obj [])] ≠ .obj [] := by
  refine ⟨?_, ?_, by simp⟩
  · simp [filter_data, filter_dict, filter_entry, filter_entry_rest,
          remove_empty_config, is_empty_value, listTruthy, natTruthy]
  · simp [filter_data, filter_dict, filter_entry, filter_entry_rest,
          remove_empty_config, is_empty_value, listTruthy, natTruthy]

/-- C4 as amended: with only `remove_empty`, filtering twice equals
filtering once on every tree whose mappings hold only scalar values (list
nesting is unrestricted); on general trees a second application can drop
further keys whose container values became empty, as the counterexample
shows. -/
theorem C4_amended_remove_empty_idempotent_on_scalar_valued_maps :
    ∀ (v : JValue), ObjValsScalar v = true →
      filter_data (filter_data v remove_empty_config) remove_empty_config
        = filter_data v remove_empty_config
  | .null, _ => by simp [filter_data]
  | .bool b, _ => by simp [filter_data]
  | .num n, _ => by simp [filter_data]
  | .str s, _ => by simp [filter_data]
  | .obj fields, h => by
      have hall : fields.all (fun kv => ScalarV kv.2) = true := by
        simpa [ObjValsScalar] using h
      have hall2 : (fields.filter (fun kv => !is_empty_value kv.2)).all
          (fun kv => ScalarV kv.2) = true := by
        rw [List.all_eq_true] at hall ⊢
        intro kv hkv
        exact hall kv (List.mem_of_mem_filter hkv)
      simp only [filter_data]
      rw [filter_dict_remove_empty_scalar fields hall,
          filter_dict_remove_empty_scalar _ hall2]
      rw [List.filter_eq_self.mpr (fun kv hkv => (List.mem_filter.mp hkv).2)]
  | .arr items, h => by
      have hmems := ObjValsScalar_arr_mem items h
      simp only [filter_data]
      rw [filter_list_remove_empty, filter_list_remove_empty]
      have hstep : ∀ y ∈ ((items.map (fun x => filter_data x remove_empty_config)).filter
            (fun y => !is_empty_value y)),
          filter_data y remove_empty_config = y := by
        intro y hy
        rcases List.mem_filter.mp hy with ⟨hy1, _⟩
        rcases List.mem_map.mp hy1 with ⟨x, hx, rfl⟩
        exact C4_amended_remove_empty_idempotent_on_scalar_valued_maps x (hmems x hx)
      have hmap : ((items.map (fun x => filter_data x remove_empty_config)).filter
            (fun y => !is_empty_value y)).map (fun x => filter_data x remove_empty_config)
          = (items.map (fun x => filter_data x remove_empty_config)).filter
              (fun y => !is_empty_value y) := by
        conv_rhs => rw [← List.map_id ((items.map
          (fun x => filter_data x remove_empty_config)).filter (fun y => !is_empty_value y))]
        exact List.map_congr_left hstep
      rw [hmap]
      rw [List.filter_eq_self.mpr (fun y hy => (List.mem_filter.mp hy).2)]
termination_by v => sizeOf v
decreasing_by
  simp_wf
  have h1 := List.sizeOf_lt_of_mem hx
  omega

/-- Witness for C4 at a flat mapping with an empty and a non-empty scalar
value: the hypothesis holds and one filtering pass is a fixed point. -/
theorem C4_amended_remove_empty_idempotent_on_scalar_valued_maps_witness :
    ObjValsScalar (.obj [("a", .null), ("b", .str "x")]) = true ∧
    filter_data (filter_data (.obj [("a", .null), ("b", .str "x")]) remove_empty_config)
        remove_empty_config
      = filter_data (.obj [("a", .null), ("b", .str "x")]) remove_empty_config :=
  ⟨by simp [ObjValsScalar, ScalarV],
   C4_amended_remove_empty_idempotent_on_scalar_valued_maps
     (.obj [("a", .null), ("b", .str "x")]) (by simp [ObjValsScalar, ScalarV])⟩

end McpRedmine
